import Mathlib

/-!
Shallow embedding of the note-taking tool (`note.py`) and proofs about its
index-synchronization logic: serial assignment, tag extraction, change
detection, search, deletion, and the JSON-backed index store.

The index (`db.json`) is a JSON object mapping filename strings to metadata
records.  Python dicts preserve insertion order, so the in-memory mapping is
modelled as an ordered association list; `dbInsert` mirrors dict assignment
(update in place when the key exists, append otherwise).  External
collaborators (the editor subprocess, `arrow` timestamps, the console) are
passed in as plain values.
-/

/-- One metadata record of the index, with the fields written by `update_db`
in `note.py` (lines 123-129). -/
structure Record where
  filename : String
  tags : List String
  modified : String
  title : String
  serial : Int
deriving DecidableEq, Repr

/-- The in-memory index: an insertion-ordered association list from filename
to record, modelling the Python dict `db.db`. -/
abbrev Db := List (String × Record)

/-- Dict lookup `db.db[k]`, returning `none` where Python raises `KeyError`. -/
def dbLookup (k : String) : Db → Option Record
  | [] => none
  | (k2, r) :: rest => if k2 == k then some r else dbLookup k rest

/-- Whether `k in db.db` holds. -/
def dbHasKey (k : String) : Db → Bool
  | [] => false
  | (k2, _) :: rest => k2 == k || dbHasKey k rest

/-- Dict assignment `db.db[k] = r`: replace the value in place when the key
exists (keeping its position), append a new entry at the end otherwise. -/
def dbInsert : Db → String → Record → Db
  | [], k, r => [(k, r)]
  | (k2, r2) :: rest, k, r =>
    if k2 == k then (k, r) :: rest else (k2, r2) :: dbInsert rest k r

/-- The list `[k["serial"] for k in db.db.values()]` from `update_db`. -/
def allSerials (db : Db) : List Int :=
  db.map (fun kv => kv.2.serial)

/-- Helper for `pySplit`: walk the characters, accumulating the current token
in reverse in `acc`, emitting it when a whitespace run begins or input ends. -/
def pySplitAux : List Char → List Char → List String
  | acc, [] => if acc.isEmpty then [] else [String.mk acc.reverse]
  | acc, c :: rest =>
    if c.isWhitespace then
      if acc.isEmpty then pySplitAux [] rest
      else String.mk acc.reverse :: pySplitAux [] rest
    else pySplitAux (c :: acc) rest

/-- Python `str.split()` with no argument: split on whitespace runs, and
empty tokens are dropped. -/
def pySplit (s : String) : List String :=
  pySplitAux [] s.data

/-- Python `str.lower()`, character-by-character (ASCII case mapping). -/
def pyLower (s : String) : String :=
  String.mk (s.data.map Char.toLower)

/-- Python `str.startswith(pre)`. -/
def pyStartsWith (s pre : String) : Bool :=
  pre.data.isPrefixOf s.data

/-- Tag extraction from `update_db` (lines 117-121): every
whitespace-separated token of the note content that starts with a hash sign,
with the leading hash stripped and the rest lowercased, collected with set
semantics (modelled by `List.dedup`). -/
def extractTags (content : String) : List String :=
  (((pySplit content).filter (fun t => pyStartsWith t "#")).map
    (fun t => pyLower (t.drop 1))).dedup

/-- The serial computation of `update_db` (lines 108-116): reuse the serial
of an existing record for the filename; otherwise `max(allserials) + 1`, or
`1` when there are no records at all. -/
def new_serial (db : Db) (filename : String) : Int :=
  match dbLookup filename db with
  | some r => r.serial
  | none =>
    match (allSerials db).max? with
    | some m => m + 1
    | none => 1

/-- `update_db` from `note.py` (lines 100-129): compute the serial, re-derive
the tags from the note content, and write the record into the index.
`content` is the text of the note file on disk at update time; `ts` stands
for `arrow.now().isoformat()`. -/
def update_db (db : Db) (filename title content ts : String) : Db :=
  dbInsert db filename
    { filename := filename, tags := extractTags content, modified := ts,
      title := title, serial := new_serial db filename }

/-- Adler-32 checksum (`zlib.adler32`) over the bytes of the note file:
running sums `a` (starting at 1) and `b` (starting at 0) modulo 65521,
combined as `b * 65536 + a`. -/
def adler32 (data : List Nat) : Nat :=
  let s := data.foldl
    (fun ab byte =>
      let a := (ab.1 + byte % 256) % 65521
      (a, (ab.2 + a) % 65521))
    (1, 0)
  s.2 * 65536 + s.1

/-- The `editor` function from `note.py` (lines 91-141), acting on the index.
`preBytes` are the bytes of the note file before the editor subprocess runs
and `postBytes` the bytes after it exits; `content` is the text of the note
file at update time (the decoded `postBytes` on the editing path).  With
`use_editor = true` the index is updated only when the two Adler-32 checksums
differ; with `use_editor = false` the metadata update always runs. -/
def editor (preBytes postBytes : List Nat) (db : Db)
    (filename title content ts : String) (use_editor : Bool) : Db :=
  if use_editor then
    if adler32 preBytes == adler32 postBytes then db
    else update_db db filename title content ts
  else update_db db filename title content ts

/-- JSON values as produced and consumed by the index store.  Only the shapes
the program writes are modelled: strings, integers, arrays and objects
(an object is an ordered list of key-value pairs, like a Python dict). -/
inductive Json where
  | str (s : String)
  | int (n : Int)
  | arr (xs : List Json)
  | obj (kvs : List (String × Json))

/-- The on-disk state of the index file `db.json`: absent
(`FileNotFoundError` on open), present but not valid JSON
(`json.decoder.JSONDecodeError`), or valid JSON. -/
inductive FileState where
  | missing
  | invalid (raw : String)
  | valid (j : Json)

/-- `DB.__init__` (lines 65-79): load the index file; a missing or
unparseable file yields the empty mapping together with a logged warning
instead of an error.  Returns the loaded JSON value and whether the warning
was emitted. -/
def DB_init : FileState → Json × Bool
  | .missing => (.obj [], true)
  | .invalid _ => (.obj [], true)
  | .valid j => (j, false)

/-- `DB.__exit__` (lines 84-88): a session opened with `write=True`
overwrites the index file with the serialized in-memory mapping when the
`with` block ends (even when the block raised); a read-only session leaves
the file as it was. -/
def DB_exit (write : Bool) (memDb : Json) (file : FileState) : FileState :=
  if write then .valid memDb else file

/-- Serialization of one record, with the fields in the order the dict
literal of `update_db` (lines 123-129) writes them. -/
def recordToJson (r : Record) : Json :=
  .obj [("filename", .str r.filename), ("tags", .arr (r.tags.map .str)),
        ("modified", .str r.modified), ("title", .str r.title),
        ("serial", .int r.serial)]

/-- Serialization of the whole index (`json.dump` of `db.db`). -/
def dbToJson (db : Db) : Json :=
  .obj (db.map (fun kv => (kv.1, recordToJson kv.2)))

/-- Decode a JSON array of strings (a stored tag list). -/
def jStrList : List Json → Option (List String)
  | [] => some []
  | .str s :: rest =>
    match jStrList rest with
    | some l => some (s :: l)
    | none => none
  | _ :: _ => none

/-- Dict lookup in a decoded JSON object. -/
def jLookup (k : String) : List (String × Json) → Option Json
  | [] => none
  | (k2, v) :: rest => if k2 == k then some v else jLookup k rest

/-- Interpret a JSON value as one index record, reading the five fields the
program stores. -/
def recordFromJson : Json → Option Record
  | .obj kvs =>
    match jLookup "filename" kvs, jLookup "tags" kvs, jLookup "modified" kvs,
          jLookup "title" kvs, jLookup "serial" kvs with
    | some (.str fn), some (.arr ts), some (.str md), some (.str tt),
      some (.int sn) =>
      match jStrList ts with
      | some tags => some ⟨fn, tags, md, tt, sn⟩
      | none => none
    | _, _, _, _, _ => none
  | _ => none

/-- Decode the entries of a JSON object into index entries. -/
def dbEntriesFromJson : List (String × Json) → Option Db
  | [] => some []
  | (k, j) :: rest =>
    match recordFromJson j, dbEntriesFromJson rest with
    | some r, some d => some ((k, r) :: d)
    | _, _ => none

/-- Interpret a loaded JSON value as the in-memory index mapping. -/
def dbFromJson : Json → Option Db
  | .obj kvs => dbEntriesFromJson kvs
  | _ => none

/-- Dict removal `db.db.pop(k)`: the mapping without key `k`, plus whether
the key was present (Python raises `KeyError` when it was not; `delete_note`
catches that and only logs a warning). -/
def dbPop (db : Db) (k : String) : Db × Bool :=
  (db.filter (fun kv => kv.1 != k), dbHasKey k db)

/-- `remove_filename_from_db` from `delete_note` (lines 230-248), returning
the in-memory mapping at scope exit together with the uncaught exception, if
any.  After the guarded `pop`, line 243 iterates `db.db["tags"]`: when no
note has the literal filename `tags` this raises `KeyError` (only the `pop`
is guarded against `KeyError`); when such a note exists, iterating its record
dict yields the key `filename` first, whose value is a `str`, and
`str.remove` does not exist, raising `AttributeError` (only `ValueError` is
caught inside the loop).  Either way the exception escapes the function. -/
def remove_filename_from_db (db : Db) (filename : String) : Db × Option String :=
  let popped := dbPop db filename
  match dbLookup "tags" popped.1 with
  | none => (popped.1, some "KeyError")
  | some _ => (popped.1, some "AttributeError")

/-- Outcome of `delete_note` once a filename has been resolved (lines
252-255): the mapping that `DB.__exit__` persisted (the write happens even
when the block raised), whether `os.rename` to the `.bak` path was reached,
and the exception propagating out, if any. -/
structure DeleteOutcome where
  persisted : Db
  renamed : Bool
  exc : Option String
deriving DecidableEq, Repr

/-- The resolved-filename branch of `delete_note`: run
`remove_filename_from_db` (whose write-intending `DB` session persists the
popped mapping on exit in all cases), then rename the note file to
`<filename>.bak` only if no exception was raised. -/
def delete_note_resolved (db : Db) (filename : String) : DeleteOutcome :=
  let step := remove_filename_from_db db filename
  { persisted := step.1, renamed := step.2.isNone, exc := step.2 }

/-- Helper for substring search: whether `needle` occurs as a contiguous
infix of the character list. -/
def strContainsAux (needle : List Char) : List Char → Bool
  | [] => needle.isEmpty
  | c :: rest => needle.isPrefixOf (c :: rest) || strContainsAux needle rest

/-- Python `needle in hay` on strings: substring containment. -/
def strContains (hay needle : String) : Bool :=
  strContainsAux needle.data hay.data

/-- The `found` set of `search_note` (lines 266-271): the filenames of the
records for which some keyword is contained in the title or in the tag list
joined by single spaces (set semantics; the double loop over keywords and
records only affects insertion order, not membership). -/
def searchFound (keywords : List String) (db : Db) : List String :=
  (db.filter (fun kv =>
    keywords.any (fun kw =>
      strContains kv.2.title kw
        || strContains (String.intercalate " " kv.2.tags) kw))).map Prod.fst

/-- Python subscripting of a `str` value with a string key, as in
`k["modified"]` at line 272 where `k` is a filename string: always raises
`TypeError` (string indices must be integers). -/
def strSubscript (s key : String) : Except String String :=
  match s, key with
  | _, _ => .error "TypeError"

/-- The result-row construction of `search_note` (line 272): for every index
entry whose key is in `found`, build the row
`[v["serial"], v["title"], " ".join(v["tags"]), arrow.get(k["modified"]).humanize()]`.
The fourth column subscripts `k` — the filename string, not the record — so
row construction raises `TypeError` for the first matching entry. -/
def searchRowsAux (found : List String) : Db → Except String (List (Int × String × String × String))
  | [] => .ok []
  | (k, v) :: rest =>
    if found.contains k then
      match strSubscript k "modified" with
      | .error e => .error e
      | .ok m =>
        match searchRowsAux found rest with
        | .error e => .error e
        | .ok rows => .ok ((v.serial, v.title, String.intercalate " " v.tags, m) :: rows)
    else searchRowsAux found rest

/-- `search_note` (lines 260-274) up to the point where the result table is
handed to the console: compute `found`, then build the display rows. -/
def search_note (keywords : List String) (db : Db) : Except String (List (Int × String × String × String)) :=
  searchRowsAux (searchFound keywords db) db

/-- Python `str.strip()`: remove whitespace from both ends. -/
def pyTrim (s : String) : String :=
  String.mk (((s.data.dropWhile Char.isWhitespace).reverse.dropWhile
    Char.isWhitespace).reverse)

/-- Whether a character list continues a Python decimal integer literal after
its first digit: digits, with single underscores allowed between digits. -/
def pyDigitsRest : List Char → Bool
  | [] => true
  | ['_'] => false
  | '_' :: c :: rest => c.isDigit && pyDigitsRest rest
  | c :: rest => c.isDigit && pyDigitsRest rest

/-- Whether a character list is a valid Python decimal digit sequence:
nonempty, starting with a digit, then `pyDigitsRest`. -/
def pyDigitsOk : List Char → Bool
  | [] => false
  | c :: rest => c.isDigit && pyDigitsRest rest

/-- Numeric value of a digit sequence, skipping underscore separators. -/
def digitsToNat (l : List Char) : Nat :=
  l.foldl (fun acc c => if c == '_' then acc else acc * 10 + (c.toNat - 48)) 0

/-- Python `int(s)` on a string (base 10, ASCII): surrounding whitespace is
stripped, one optional sign is allowed, then a digit sequence with optional
underscore grouping; anything else raises `ValueError`. -/
def pyInt (s : String) : Except String Int :=
  let body := (pyTrim s).data
  let signed : Int × List Char :=
    match body with
    | '+' :: r => (1, r)
    | '-' :: r => (-1, r)
    | r => (1, r)
  if pyDigitsOk signed.2 then .ok (signed.1 * (digitsToNat signed.2 : Int))
  else .error "ValueError"

/-- `get_filename_and_title_from_serial` (lines 150-161): linear scan for the
first record with the requested serial; `("", "")` when nothing matches. -/
def get_filename_and_title_from_serial (db : Db) (serial : Int) : String × String :=
  match db.find? (fun kv => kv.2.serial == serial) with
  | some kv => (kv.1, kv.2.title)
  | none => ("", "")

/-- `get_filename_from_title` (lines 163-174): linear scan for the first
record whose title equals the query exactly; `""` when nothing matches. -/
def get_filename_from_title (db : Db) (title : String) : String :=
  match db.find? (fun kv => kv.2.title == title) with
  | some kv => kv.1
  | none => ""

/-- What one iteration of the `ask_for_note` prompt loop does with the input:
abort on empty input, return a resolved note, or ask again. -/
inductive AskOutcome where
  | abort
  | retry
  | found (filename title : String)
deriving DecidableEq, Repr

/-- One iteration of the `ask_for_note` loop (lines 176-189) on user input
`i`.  An input starting with `$` goes through `int(i[1:])`, which raises
`ValueError` on a malformed remainder; no handler exists on that path, so the
exception escapes (modelled as `Except.error`). -/
def ask_for_note_step (db : Db) (i : String) : Except String AskOutcome :=
  if i == "" then .ok .abort
  else if pyStartsWith i "$" then
    match pyInt (i.drop 1) with
    | .error e => .error e
    | .ok n =>
      let ft := get_filename_and_title_from_serial db n
      if ft.1 != "" then .ok (.found ft.1 ft.2) else .ok .retry
  else
    let filename := get_filename_from_title db i
    if filename != "" then .ok (.found filename i) else .ok .retry

/-- The group the regular expression
`^[^\x2f]*(\x2f.*?\x2f)?.*$` of `new_note` (line 342) captures on the whole
command-line string: the leading `[^\x2f]*` consumes up to the first slash,
the lazy optional group then matches from that slash to the next one, so the
group is the span from the first slash through the next slash after it, and
the empty string when the string has fewer than two slashes. -/
def findTitleMatch (s : String) : String :=
  match s.data.dropWhile (fun c => c != '/') with
  | [] => ""
  | _ :: rest =>
    if rest.contains '/' then
      String.mk ('/' :: (rest.takeWhile (fun c => c != '/') ++ ['/']))
    else ""

/-- Python `str.replace(pat, rep)` for a nonempty `pat` (the call site in
`new_note` only replaces the nonempty regex match): scan left to right,
replacing non-overlapping occurrences.  `skip` counts characters of a
just-matched occurrence still to consume.  An empty `pat` is left
unreplaced here; Python would instead interleave `rep` everywhere, but the
program never calls it that way. -/
def pyReplaceAux (pat rep : List Char) : List Char → Nat → List Char
  | [], _ => []
  | _ :: rest, skip + 1 => pyReplaceAux pat rep rest skip
  | c :: rest, 0 =>
    if pat.isPrefixOf (c :: rest) && !pat.isEmpty then
      rep ++ pyReplaceAux pat rep rest (pat.length - 1)
    else c :: pyReplaceAux pat rep rest 0

/-- Python `str.replace` at the `new_note` call site. -/
def pyReplace (s pat rep : String) : String :=
  String.mk (pyReplaceAux pat.data rep.data s.data 0)

/-- What `new_note` (lines 310-360) decides to do: create a quick note with a
given title and body without starting the editor, create a note with a given
title and open the editor, or first prompt for a title (then quick note from
the command-line body, or editor on an empty note). -/
inductive NewNoteAction where
  | quick (title body : String)
  | editorWithTitle (title : String)
  | askTitleQuick (body : String)
  | askTitleEditor
deriving DecidableEq, Repr

/-- `new_note` (lines 336-360): join the command-line words, look for a
slash-delimited title, strip the delimiters, remove the matched span from the
content, renormalize whitespace, and dispatch on what is left. -/
def new_note (content : List String) : NewNoteAction :=
  let content_str := String.intercalate " " content
  if content_str != "" then
    let m := findTitleMatch content_str
    if m != "" then
      let title := (m.drop 1).dropRight 1
      let rest := String.intercalate " " (pySplit (pyReplace content_str m ""))
      if rest != "" then .quick title rest
      else .editorWithTitle title
    else .askTitleQuick content_str
  else .askTitleEditor


/-- Sample record used to instantiate theorems with hypotheses. -/
def recA : Record :=
  { filename := "a", tags := ["groceries"], modified := "2024-01-01T00:00:00",
    title := "t", serial := 5 }

/-- Looking up a key right after dict assignment yields the assigned record. -/
theorem dbLookup_dbInsert_self (db : Db) (k : String) (r : Record) :
    dbLookup k (dbInsert db k r) = some r := by
  induction db with
  | nil => simp [dbInsert, dbLookup]
  | cons kv rest ih =>
    obtain ⟨k2, r2⟩ := kv
    by_cases hk : (k2 == k) = true
    · simp [dbInsert, dbLookup, hk]
    · simp [dbInsert, dbLookup, hk, ih]

/-- The record `update_db` leaves under `filename`. -/
theorem update_db_lookup (db : Db) (filename title content ts : String) :
    dbLookup filename (update_db db filename title content ts)
      = some { filename := filename, tags := extractTags content, modified := ts,
               title := title, serial := new_serial db filename } :=
  dbLookup_dbInsert_self db filename _

/-- Claim C1: a save through `update_db` assigns a fresh filename the serial
`max(serials) + 1` (or `1` when the index has no records), and preserves the
existing serial when the filename already has a record. -/
theorem serial_assignment (db : Db) (filename title content ts : String) :
    (dbLookup filename db = none → db = [] →
      (dbLookup filename (update_db db filename title content ts)).map Record.serial
        = some 1)
  ∧ (∀ m : Int, dbLookup filename db = none → (allSerials db).max? = some m →
      (dbLookup filename (update_db db filename title content ts)).map Record.serial
        = some (m + 1))
  ∧ (∀ r : Record, dbLookup filename db = some r →
      (dbLookup filename (update_db db filename title content ts)).map Record.serial
        = some r.serial) := by
  refine ⟨?_, ?_, ?_⟩
  · intro h1 h2
    subst h2
    simp [update_db_lookup, new_serial, allSerials] at *
    simp [h1]
  · intro m h1 h2
    simp [update_db_lookup, new_serial, h1, h2]
  · intro r h1
    simp [update_db_lookup, new_serial, h1]

/-- Witness for C1: on an index holding one record with serial 5, a new
filename gets serial 6, an empty index starts at 1, and re-saving the
existing filename keeps serial 5. -/
theorem serial_assignment_witness :
    (dbLookup "n" (update_db [] "n" "T" "" "ts")).map Record.serial = some 1
  ∧ (dbLookup "b" (update_db [("a", recA)] "b" "T" "" "ts")).map Record.serial
      = some (5 + 1)
  ∧ (dbLookup "a" (update_db [("a", recA)] "a" "T" "" "ts")).map Record.serial
      = some recA.serial :=
  ⟨(serial_assignment [] "n" "T" "" "ts").1 rfl rfl,
   (serial_assignment [("a", recA)] "b" "T" "" "ts").2.1 5 (by decide) (by decide),
   (serial_assignment [("a", recA)] "a" "T" "" "ts").2.2 recA (by decide)⟩

/-- Claim C3: an edit session whose post-editor byte content equals the
pre-editor byte content (hence equal checksums) performs no index update: the
index, and in particular the record of the edited note with its serial, tags,
title and modified timestamp, is left unchanged. -/
theorem edit_noop (preBytes postBytes : List Nat) (db : Db)
    (filename title content ts : String) (h : postBytes = preBytes) :
    editor preBytes postBytes db filename title content ts true = db
      ∧ dbLookup filename (editor preBytes postBytes db filename title content ts true)
          = dbLookup filename db := by
  subst h
  have he : editor postBytes postBytes db filename title content ts true = db := by
    simp [editor]
  exact ⟨he, by rw [he]⟩

/-- Witness for C3: concrete unchanged bytes leave a concrete index intact. -/
theorem edit_noop_witness :
    editor [104, 105] [104, 105] [("a", recA)] "a" "t" "#new content" "ts" true
        = [("a", recA)]
      ∧ dbLookup "a" (editor [104, 105] [104, 105] [("a", recA)] "a" "t" "#new content" "ts" true)
          = dbLookup "a" [("a", recA)] :=
  edit_noop [104, 105] [104, 105] [("a", recA)] "a" "t" "#new content" "ts" rfl

/-- Claim C4: the tag list stored by a save is exactly the deduplicated set
of lowercased whitespace-separated tokens of the note content that begin with
a hash, with the leading hash stripped; it depends only on the content, fully
replacing whatever tag list the record had before. -/
theorem tags_from_content (db : Db) (filename title content ts : String) :
    ∃ rec, dbLookup filename (update_db db filename title content ts) = some rec
      ∧ rec.tags = extractTags content
      ∧ ∀ s, s ∈ rec.tags ↔
          ∃ tok, tok ∈ pySplit content ∧ pyStartsWith tok "#" = true
            ∧ s = pyLower (tok.drop 1) := by
  refine ⟨_, update_db_lookup db filename title content ts, rfl, ?_⟩
  intro s
  simp only [extractTags, List.mem_dedup, List.mem_map, List.mem_filter]
  constructor
  · rintro ⟨tok, ⟨htok, hp⟩, hf⟩
    exact ⟨tok, htok, hp, hf.symm⟩
  · rintro ⟨tok, htok, hp, hf⟩
    exact ⟨tok, ⟨htok, hp⟩, hf.symm⟩

/-- Claim C6: a write-intending session overwrites the index file with the
full in-memory mapping at session end whatever the previous file state was,
and a read-only session leaves the file state untouched whatever the
in-memory mapping was mutated to. -/
theorem session_write_contract (memDb : Json) (file : FileState) :
    DB_exit true memDb file = .valid memDb ∧ DB_exit false memDb file = file :=
  ⟨rfl, rfl⟩

/-- Claim C7: loading the index from a missing or unparseable file yields the
empty JSON mapping together with the logged warning instead of an error, and
that JSON value decodes to the empty in-memory index, so the operation
proceeds. -/
theorem load_tolerant :
    DB_init .missing = (.obj [], true)
      ∧ (∀ raw, DB_init (.invalid raw) = (.obj [], true))
      ∧ dbFromJson (Json.obj []) = some [] :=
  ⟨rfl, fun _ => rfl, rfl⟩

theorem jStrList_map_str (l : List String) : jStrList (l.map Json.str) = some l := by
  induction l with
  | nil => rfl
  | cons s rest ih => simp [jStrList, ih]

theorem recordFromJson_recordToJson (r : Record) :
    recordFromJson (recordToJson r) = some r := by
  obtain ⟨fn, tags, md, tt, sn⟩ := r
  simp [recordToJson, recordFromJson, jLookup, jStrList_map_str]

theorem dbFromJson_dbToJson (db : Db) : dbFromJson (dbToJson db) = some db := by
  induction db with
  | nil => rfl
  | cons kv rest ih =>
    obtain ⟨k, r⟩ := kv
    simp only [dbToJson, dbFromJson, List.map_cons, dbEntriesFromJson,
      recordFromJson_recordToJson]
    simp only [dbToJson, dbFromJson] at ih
    simp [ih]

/-- Claim C8: serializing the in-memory index at the end of a write session
and loading the resulting file in a new session yields a mapping equal
field-for-field to the one at write time. -/
theorem index_roundtrip (db : Db) (file : FileState) :
    dbFromJson (DB_init (DB_exit true (dbToJson db) file)).1 = some db := by
  simp [DB_exit, DB_init, dbFromJson_dbToJson]

/-- Claim C2 (code bug): deleting a filename that has a record pops it from
the mapping and the write-intending session persists that removal, but
`remove_filename_from_db` then raises an uncaught `KeyError` iterating
`db.db["tags"]` (a leftover of an older schema), so `os.rename` to the `.bak`
path is never reached; a deletion attempt on an absent filename hits the same
uncaught `KeyError` after its logged warning instead of completing. -/
theorem delete_note_tags_keyerror :
    delete_note_resolved [("f1", recA)] "f1"
        = { persisted := [], renamed := false, exc := some "KeyError" }
      ∧ delete_note_resolved [] "absent"
          = { persisted := [], renamed := false, exc := some "KeyError" } :=
  ⟨by decide, by decide⟩

/-- Claim C5 (code bug): the `found` set of `search_note` does contain
exactly the records a keyword matches by title or tag substring, but the
result-row construction subscripts the filename string with `"modified"`, so
any non-empty match set raises `TypeError` instead of returning the records;
only the no-match case completes, with an empty result. -/
theorem search_note_typeerror :
    search_note ["foo"]
        [("f1", { filename := "f1", tags := [], modified := "m",
                  title := "foobar", serial := 1 })] = .error "TypeError"
      ∧ search_note ["foo"]
          [("f2", { filename := "f2", tags := ["foo"], modified := "m",
                    title := "other", serial := 2 })] = .error "TypeError"
      ∧ search_note ["foo"]
          [("f3", { filename := "f3", tags := ["baz"], modified := "m",
                    title := "other", serial := 3 })] = .ok []
      ∧ searchFound ["foo"]
          [("f1", { filename := "f1", tags := [], modified := "m",
                    title := "foobar", serial := 1 }),
           ("f2", { filename := "f2", tags := ["foo"], modified := "m",
                    title := "other", serial := 2 }),
           ("f3", { filename := "f3", tags := ["baz"], modified := "m",
                    title := "other", serial := 3 })] = ["f1", "f2"] :=
  ⟨rfl, rfl, rfl, by decide⟩

/-- Claim C9 (code bug): a note-selection input that starts with a dollar
sign but whose remainder is not a valid integer literal goes through the
unguarded `int(i[1:])`, whose `ValueError` escapes `ask_for_note` instead of
being converted to a log message with a continue-or-abort decision. -/
theorem ask_malformed_serial_raises :
    ask_for_note_step [] "$abc" = .error "ValueError"
      ∧ ask_for_note_step [] "$" = .error "ValueError"
      ∧ ask_for_note_step [("a", recA)] "$5" = .ok (.found "a" "t")
      ∧ ask_for_note_step [] "" = .ok .abort :=
  ⟨rfl, rfl, rfl, rfl⟩

/-- Claim C10: the command-line content `buy milk /groceries/` is split into
the title `groceries` (the span between the two slashes, delimiters removed)
and the body `buy milk`, and handled as a quick note that never starts the
editor. -/
theorem quick_note_title_extraction :
    new_note ["buy", "milk", "/groceries/"] = .quick "groceries" "buy milk" := by
  decide
